import Mathlib

/-!
# dagger: container lifecycle harness

A shallow embedding of `dagger.go` and `utils/utils.go`.

A Go string is a sequence of bytes. It is modelled by the Lean string that has
one character per byte, the character whose code is that byte: ASCII text is
written as itself, and the two bytes of the UTF-8 encoding of U+00E9 are
written "\xc3\xa9". So `length` is Go's `len`, `take n` on the characters is
the slice `[:n]`, `++` is `+`, and the functions of package `strings` work on
the bytes; where Go decodes UTF-8 (`strings.TrimSpace`) the model decodes it
from the bytes as well. A Lean string with a character above 255 stands for no
Go string.

External effects are explicit: every `exec.Command` consumes the next
scripted result of a `World` and is appended to its log, every `select`
of `App.Start` consumes the next `Event` of a schedule, and the order in
which `range` walks the `Env` map is an argument.
-/

namespace Dagger

/-! ## Package `strings` -/

/-- The six ASCII white-space bytes: tab, line feed, vertical tab, form feed,
carriage return, space. -/
def asciiSpace (b : Nat) : Bool :=
  (0x09 ≤ b && b ≤ 0x0D) || b == 0x20

/-- The two-byte UTF-8 encodings of white space: U+0085 and U+00A0. -/
def space2 (b0 b1 : Nat) : Bool :=
  b0 == 0xC2 && (b1 == 0x85 || b1 == 0xA0)

/-- The three-byte UTF-8 encodings of white space: U+1680, U+2000 to U+200A,
U+2028, U+2029, U+202F, U+205F and U+3000. -/
def space3 (b0 b1 b2 : Nat) : Bool :=
  (b0 == 0xE1 && b1 == 0x9A && b2 == 0x80) ||
  (b0 == 0xE2 && b1 == 0x80 &&
    ((0x80 ≤ b2 && b2 ≤ 0x8A) || b2 == 0xA8 || b2 == 0xA9 || b2 == 0xAF)) ||
  (b0 == 0xE2 && b1 == 0x81 && b2 == 0x9F) ||
  (b0 == 0xE3 && b1 == 0x80 && b2 == 0x80)

/-- Width in bytes of the rune decoded at the front of `l` if `unicode.IsSpace`
holds of it, and 0 otherwise (also for a byte that starts no valid encoding). -/
def leadingSpace (l : List Char) : Nat :=
  match l.map Char.toNat with
  | [] => 0
  | b0 :: rest =>
    if asciiSpace b0 then 1
    else
      match rest with
      | [] => 0
      | b1 :: rest2 =>
        if space2 b0 b1 then 2
        else
          match rest2 with
          | [] => 0
          | b2 :: _ => if space3 b0 b1 b2 then 3 else 0

/-- Width in bytes of the last rune of a string if `unicode.IsSpace` holds of
it, and 0 otherwise; `r` is the string reversed, last byte first. -/
def trailingSpace (r : List Char) : Nat :=
  match r.map Char.toNat with
  | [] => 0
  | b0 :: rest =>
    if asciiSpace b0 then 1
    else
      match rest with
      | [] => 0
      | b1 :: rest2 =>
        if space2 b1 b0 then 2
        else
          match rest2 with
          | [] => 0
          | b2 :: _ => if space3 b2 b1 b0 then 3 else 0

/-- Drop white-space runes from the front as long as `width` finds one; every
round drops at least one byte, so `fuel` at least the length is enough. -/
def dropSpaces (width : List Char → Nat) : Nat → List Char → List Char
  | 0, l => l
  | fuel + 1, l =>
    match width l with
    | 0 => l
    | w + 1 => dropSpaces width fuel (l.drop (w + 1))

/-- Remove the leading white space of a byte list. -/
def trimLeft (l : List Char) : List Char :=
  dropSpaces leadingSpace l.length l

/-- Remove the trailing white space of a byte list. -/
def trimRight (l : List Char) : List Char :=
  (dropSpaces trailingSpace l.length l.reverse).reverse

/-- Go `strings.TrimSpace`: all leading and trailing white space, as defined by
Unicode, removed; first the front, then the back of what is left. -/
def TrimSpace (s : String) : String :=
  ⟨trimRight (trimLeft s.data)⟩

/-- Split a byte list at every occurrence of `sep`; the result has one more
element than there are separators. -/
def splitChars (sep : Char) : List Char → List (List Char)
  | [] => [[]]
  | c :: cs =>
    if c = sep then [] :: splitChars sep cs
    else
      match splitChars sep cs with
      | [] => [[c]]
      | p :: ps => (c :: p) :: ps

/-- Go `strings.Split(s, sep)` for a separator of one byte, which is how
the program calls it (`":"` and `"\n"`). -/
def Split (s : String) (sep : Char) : List String :=
  (splitChars sep s.data).map String.mk

/-- Go `strings.Contains(s, substr)`. -/
def Contains (s substr : String) : Bool :=
  s.data.tails.any (fun t => substr.data.isPrefixOf t)

/-! ## External commands -/

/-- What one external command does: the bytes it writes to standard output and
the `error` of `cmd.Run` / `cmd.Output` (`none` is Go's `nil`). -/
structure CmdResult where
  stdout : String
  err : Option String
deriving DecidableEq, Repr

/-- The branch taken by one `select` of the polling loop. -/
inductive Event where
  | tick
  | deadline
deriving DecidableEq, Repr

/-- The environment of a run: the results the external commands will give, in
the order the commands are issued, and the commands issued so far (full
argument vectors). -/
structure World where
  responses : List CmdResult
  log : List (List String)
deriving DecidableEq, Repr

/-- Run one external command: log it and take its scripted result; `none` when
the script has no further result. -/
def World.exec (w : World) (argv : List String) : Option (CmdResult × World) :=
  match w.responses with
  | [] => none
  | r :: rs => some (r, { w with responses := rs, log := w.log ++ [argv] })

/-- How a call ends: it returns its results, it panics, or the scripted
environment has nothing more to offer (`blocked`, an artefact of the model). -/
inductive Outcome (α : Type) where
  | returned (v : α)
  | panicked
  | blocked
deriving DecidableEq, Repr

/-- Go `error`: `none` is `nil`, `some msg` an error with that message. -/
abbrev GoError := Option String

/-! ## `App` -/

structure HealthCheck where
  command : String
  interval : String
  timeout : String
deriving DecidableEq, Repr

/-- The `App` struct; `Env` lists the entries of the Go map (keys distinct). -/
structure App where
  Memory : String
  buildLogs : String
  Env : List (String × String)
  imageName : String
  containerId : String
  port : String
  fixtureName : String
  healthCheck : HealthCheck
deriving DecidableEq, Repr

/-- `App.SetHealthCheck`. -/
def App.SetHealthCheck (a : App) (command interval timeout : String) : App :=
  { a with healthCheck := { command := command, interval := interval, timeout := timeout } }

/-- State after a method call on an `App` that returns `error`. -/
structure Result where
  out : Outcome GoError
  app : App
  world : World
deriving DecidableEq, Repr

/-- `App.Destroy`. -/
def App.Destroy (a : App) (w : World) : Result :=
  if a.containerId = "" then ⟨.returned none, a, w⟩
  else
    match w.exec ["docker", "stop", a.containerId] with
    | none => ⟨.blocked, a, w⟩
    | some (⟨_, some e⟩, w1) => ⟨.returned (some e), a, w1⟩
    | some (⟨_, none⟩, w1) =>
    match w1.exec ["docker", "rm", a.containerId, "-f", "--volumes"] with
    | none => ⟨.blocked, a, w1⟩
    | some (⟨_, some e⟩, w2) => ⟨.returned (some e), a, w2⟩
    | some (⟨_, none⟩, w2) =>
    let a1 := { a with containerId := "", port := "" }
    if a1.imageName = "" then ⟨.returned none, a1, w2⟩
    else
      match w2.exec ["docker", "rmi", a1.imageName, "-f"] with
      | none => ⟨.blocked, a1, w2⟩
      | some (⟨_, some e⟩, w3) => ⟨.returned (some e), a1, w3⟩
      | some (⟨_, none⟩, w3) =>
      match w3.exec ["docker", "image", "prune", "-f"] with
      | none => ⟨.blocked, a1, w3⟩
      | some (⟨_, some e⟩, w4) => ⟨.returned (some e), a1, w4⟩
      | some (⟨_, none⟩, w4) => ⟨.returned none, { a1 with imageName := "" }, w4⟩

/-- The flags `App.Start` hands to `docker`; `iter` is the order in which
`range a.Env` yields the entries of the map. -/
def App.startArgs (a : App) (iter : List (String × String)) : List String :=
  let args := ["run", "-d", "-P"]
  let args := if a.Memory ≠ "" then args ++ ["--memory", a.Memory] else args
  let args := if a.healthCheck.command ≠ "" then
    args ++ ["--health-cmd", a.healthCheck.command] else args
  let args := if a.healthCheck.interval ≠ "" then
    args ++ ["--health-interval", a.healthCheck.interval] else args
  let args := if a.healthCheck.timeout ≠ "" then
    args ++ ["--health-timeout", a.healthCheck.timeout] else args
  let args := iter.foldl (fun args kv => args ++ ["-e", kv.1 ++ "=" ++ kv.2]) args
  args ++ [a.imageName]

/-- The labelled `for`/`select` loop of `App.Start`, one iteration per event.
The result is `none` when the loop is left by `break docker`, and the outcome
of `Start` when the loop returns from it. -/
def pollHealth (a : App) : List Event → World → Option (Outcome GoError) × World
  | [], w => (some .blocked, w)
  | .deadline :: _, w =>
    (some (.returned (some ("timed out waiting for app : " ++ a.fixtureName))), w)
  | .tick :: evs, w =>
    match w.exec
        ["docker", "inspect", "-f", "\x7b\x7b.State.Health.Status\x7d\x7d", a.containerId] with
    | none => (some .blocked, w)
    | some (⟨_, some e⟩, w1) => (some (.returned (some e)), w1)
    | some (⟨status, none⟩, w1) =>
      if TrimSpace status = "unhealthy" then
        (some (.returned (some ("app failed to start : " ++ a.fixtureName))), w1)
      else if TrimSpace status = "healthy" then (none, w1)
      else pollHealth a evs w1

/-- The last block of `App.Start`: the port query writes to the buffer that
already holds the output of `docker run`. -/
def discoverPort (a : App) (buf : String) (w : World) : Result :=
  match w.exec ["docker", "container", "port", a.containerId] with
  | none => ⟨.blocked, a, w⟩
  | some (⟨_, some e⟩, w1) => ⟨.returned (some e), a, w1⟩
  | some (⟨out, none⟩, w1) =>
    match Split (buf ++ out) ':' with
    | _ :: p :: _ => ⟨.returned none, { a with port := TrimSpace p }, w1⟩
    | _ => ⟨.panicked, a, w1⟩

/-- `App.Start`. `buf` is the output of `docker run`; the slice
`buf.String()[:12]` panics when it has fewer than 12 bytes and is its first 12
bytes otherwise. -/
def App.Start (a : App) (iter : List (String × String)) (events : List Event)
    (w : World) : Result :=
  match w.exec ("docker" :: a.startArgs iter) with
  | none => ⟨.blocked, a, w⟩
  | some (⟨_, some e⟩, w1) => ⟨.returned (some e), a, w1⟩
  | some (⟨buf, none⟩, w1) =>
    if buf.length < 12 then ⟨.panicked, a, w1⟩
    else
      let a1 := { a with containerId := ⟨buf.data.take 12⟩ }
      match pollHealth a1 events w1 with
      | (some o, w2) => ⟨o, a1, w2⟩
      | (none, w2) => discoverPort a1 buf w2

set_option linter.unusedVariables false in
/-- `getCacheVolumes`: the loop collects the lines that contain `pack-cache`
in `finalVolumes`; the value returned is `outputArr`. -/
def getCacheVolumes (w : World) : Outcome (List String × GoError) × World :=
  match w.exec ["docker", "volume", "ls", "-q"] with
  | none => (.blocked, w)
  | some (⟨_, some e⟩, w1) => (.returned ([], some e), w1)
  | some (⟨output, none⟩, w1) =>
    let outputArr := Split output '\n'
    let finalVolumes : List String := outputArr.foldl
      (fun fv line => if Contains line "pack-cache" then fv ++ [line] else fv) []
    (.returned (outputArr, none), w1)

/-- `App.Info`. -/
def App.Info (a : App) (w : World) :
    Outcome (String × String × List String × GoError) × World :=
  match getCacheVolumes w with
  | (.returned (_, some err), w1) => (.returned ("", "", [], some err), w1)
  | (.returned (volumes, none), w1) =>
    (.returned (a.containerId, a.imageName, volumes, none), w1)
  | (.panicked, w1) => (.panicked, w1)
  | (.blocked, w1) => (.blocked, w1)

/-! ## HTTP against the published port -/

/-- An `http.Response` as far as `HTTPGet` looks at it; `Body` is the result of
`ioutil.ReadAll(resp.Body)`. -/
structure HttpResponse where
  StatusCode : Int
  Header : List (String × List String)
  Body : Except String String

/-- `App.HTTPGet`; `httpGet` is `http.Get`. A `nil` header map is `none`. -/
def App.HTTPGet (a : App) (httpGet : String → Except String HttpResponse)
    (path : String) : String × Option (List (String × List String)) × GoError :=
  match httpGet ("http://localhost:" ++ a.port ++ path) with
  | .error err => ("", none, some err)
  | .ok resp =>
    if resp.StatusCode < 200 ∨ resp.StatusCode ≥ 300 then
      ("", none, some "received bad response from application")
    else
      match resp.Body with
      | .error err => ("", none, some err)
      | .ok body => (body, some resp.Header, none)

/-- `App.HTTPGetBody`. -/
def App.HTTPGetBody (a : App) (httpGet : String → Except String HttpResponse)
    (path : String) : String × GoError :=
  match a.HTTPGet httpGet path with
  | (resp, _, err) => (resp, err)

/-! ## Releases -/

structure Asset where
  BrowserDownloadURL : String
deriving DecidableEq, Repr

/-- `utils.ReleaseResponse`. -/
structure ReleaseResponse where
  TagName : String
  Assets : List Asset
  SourceTarball : String
deriving DecidableEq, Repr

/-- `GetDownloadUri`; indexing `response.Assets[asset]` outside the slice is a
run-time panic. The `fmt.Printf` of the error branch is not modelled. -/
def GetDownloadUri (response : ReleaseResponse) (asset : Int) :
    Outcome (String × String × GoError) :=
  if (response.Assets.length : Int) < asset then
    .returned ("", "",
      some ("there is no corresponding no release asset at index " ++ toString asset))
  else if asset < 0 then .panicked
  else
    match response.Assets.get? asset.toNat with
    | none => .panicked
    | some x => .returned (x.BrowserDownloadURL, response.TagName, none)

/-! ## Download cache -/

/-- The process state `DownloadArchive` works on: the `sync.Map` (latest store
first), the scripted results of the coming `http.Get` calls (transport error,
or the result of reading the body), the URIs requested so far, the scripted
results of the coming `ioutil.TempFile` calls (error, or the name of the file
with the error of `io.Copy`), and the files written. -/
structure Store where
  downloadCache : List (String × String)
  http : List (Except String (Except String String))
  gets : List String
  temps : List (Except String (String × GoError))
  files : List (String × String)

/-- The first block of `DownloadArchive`: the contents for `name` and `tagName`,
from the cache or from the network; `digest uri` is the URL-safe base64 text
of the SHA-256 sum of `uri`. -/
def loadOrFetch (digest : String → String) (uri name tagName : String) (s : Store) :
    Except (Outcome (String × GoError) × Store) (String × Store) :=
  match s.downloadCache.lookup (name ++ tagName) with
  | some contents => .ok (contents, s)
  | none =>
    match s.http with
    | [] => .error (.blocked, s)
    | r :: rs =>
      let s1 := { s with http := rs, gets := s.gets ++ [uri] }
      match r with
      | .error err => .error (.returned ("", some err), s1)
      | .ok (.error err) => .error (.returned ("", some err), s1)
      | .ok (.ok contents) =>
        let sha := digest uri
        .ok (contents,
          { s1 with downloadCache := (name ++ tagName ++ sha, contents) :: s1.downloadCache })

/-- `utils.DownloadArchive`. -/
def DownloadArchive (digest : String → String) (uri name tagName : String) (s : Store) :
    Outcome (String × GoError) × Store :=
  match loadOrFetch digest uri name tagName s with
  | .error r => r
  | .ok (contents, s2) =>
    match s2.temps with
    | [] => (.blocked, s2)
    | .error err :: ts => (.returned ("", some err), { s2 with temps := ts })
    | .ok (_, some err) :: ts => (.returned ("", some err), { s2 with temps := ts })
    | .ok (downloadFile, none) :: ts =>
      (.returned (downloadFile, none),
        { s2 with temps := ts, files := s2.files ++ [(downloadFile, contents)] })

/-! ## Vocabulary of the statements -/

/-- A status that keeps the loop going. -/
def pending (status : String) : Prop :=
  TrimSpace status ≠ "healthy" ∧ TrimSpace status ≠ "unhealthy"

instance (status : String) : Decidable (pending status) :=
  inferInstanceAs (Decidable (_ ∧ _))

/-- A successful command that printed `out`. -/
def printed (out : String) : CmdResult := ⟨out, none⟩

/-- What `Start` does with the result of the polling loop. -/
def afterPoll (a1 : App) (buf : String) : Option (Outcome GoError) × World → Result
  | (some o, w2) => ⟨o, a1, w2⟩
  | (none, w2) => discoverPort a1 buf w2

/-- The pair of arguments for one entry of `Env`. -/
def envFlag (kv : String × String) : List String :=
  ["-e", kv.1 ++ "=" ++ kv.2]

/-! ## Sample data -/

/-- An application built from a fixture, no health check configured. -/
def plainApp : App :=
  { Memory := "", buildLogs := "", Env := [], imageName := "app-1", containerId := "",
    port := "", fixtureName := "fixtures/simple", healthCheck := ⟨"", "", ""⟩ }

/-- The same application with a health check. -/
def checkedApp : App :=
  plainApp.SetHealthCheck "curl -f http://localhost:8080/" "1s" "2s"

/-- What `docker run -d` prints: the identifier of the new container. -/
def runOutput : String := "0123456789abcdef0123456789abcdef\n"

/-- A run output that is not ASCII: eight times the two bytes of the UTF-8
encoding of U+00E9, then a newline; 17 bytes. -/
def accentedOutput : String :=
  "\xc3\xa9\xc3\xa9\xc3\xa9\xc3\xa9\xc3\xa9\xc3\xa9\xc3\xa9\xc3\xa9\n"

/-- A started application. -/
def runningApp : App :=
  { checkedApp with containerId := "0123456789ab", port := "32768" }

/-- A started `App` value whose image name is empty. -/
def namelessApp : App :=
  { runningApp with imageName := "" }

/-- A command that succeeds without output. -/
def done : CmdResult := ⟨"", none⟩

/-- A release without assets. -/
def bareRelease : ReleaseResponse :=
  { TagName := "v1.0.0", Assets := [],
    SourceTarball := "https://api.github.com/repos/cloudfoundry/x-cnb/tarball/v1.0.0" }

/-- A server that answers every request with status 200. -/
def helloServer (_url : String) : Except String HttpResponse :=
  .ok { StatusCode := 200, Header := [("Content-Type", ["text/plain"])], Body := .ok "hello" }

/-- An application whose health check has a command and neither interval nor
timeout. -/
def commandOnlyApp : App :=
  plainApp.SetHealthCheck "curl -f http://localhost:8080/" "" ""

/-- An application with a memory limit and two environment entries. -/
def tunedApp : App :=
  { checkedApp with Memory := "128m", Env := [("PORT", "8080"), ("MODE", "test")] }

/-- The state of a fresh process whose next two `http.Get` calls deliver
`first` and `second` and whose next two temporary files are `file1`, `file2`. -/
def freshStore (first second file1 file2 : String) : Store :=
  { downloadCache := [], http := [.ok (.ok first), .ok (.ok second)], gets := [],
    temps := [.ok (file1, none), .ok (file2, none)], files := [] }

/-- A stand-in for the digest text: 44 characters, the length of the URL-safe
base64 text of a SHA-256 sum. -/
def sampleDigest (_uri : String) : String :=
  String.mk (List.replicate 44 'A')

/-! ## Lemmas on the polling loop -/

/-- White space is decoded from the bytes: the encodings of U+00A0 (two bytes)
and U+2028 (three bytes) are trimmed, a lone byte 0xA0 and white space inside
the text are not. -/
theorem TrimSpace_decodes :
    TrimSpace " \t\xc2\xa0healthy\xe2\x80\xa8\r\n" = "healthy" ∧
    TrimSpace "\xa0healthy" = "\xa0healthy" ∧
    TrimSpace "un healthy\n" = "un healthy" ∧
    TrimSpace "\n \n" = "" := by
  decide

theorem pollHealth_pending (a : App) (sts : List String) (hsts : ∀ s ∈ sts, pending s)
    (evs : List Event) (rest : List CmdResult) (log : List (List String)) :
    pollHealth a (List.replicate sts.length Event.tick ++ evs)
        ⟨sts.map printed ++ rest, log⟩
      = pollHealth a evs
        ⟨rest, log ++ List.replicate sts.length
          ["docker", "inspect", "-f", "\x7b\x7b.State.Health.Status\x7d\x7d",
            a.containerId]⟩ := by
  induction sts generalizing log with
  | nil => simp
  | cons s sts ih =>
    have hs := hsts s (List.mem_cons_self _ _)
    have ih' := ih (fun t ht => hsts t (List.mem_cons_of_mem _ ht))
      (log ++ [["docker", "inspect", "-f", "\x7b\x7b.State.Health.Status\x7d\x7d",
        a.containerId]])
    simp only [List.length_cons, List.replicate_succ, List.cons_append, List.map_cons,
      pollHealth, World.exec, printed, hs.1, hs.2, if_false]
    simpa [List.append_assoc] using ih'

theorem pollHealth_then_healthy (a : App) (sts : List String)
    (hsts : ∀ s ∈ sts, pending s) (s : String) (hs : TrimSpace s = "healthy")
    (evs : List Event) (rest : List CmdResult) (log : List (List String)) :
    pollHealth a (List.replicate sts.length Event.tick ++ Event.tick :: evs)
        ⟨sts.map printed ++ printed s :: rest, log⟩
      = (none, ⟨rest, log ++ List.replicate (sts.length + 1)
          ["docker", "inspect", "-f", "\x7b\x7b.State.Health.Status\x7d\x7d",
            a.containerId]⟩) := by
  rw [pollHealth_pending a sts hsts]
  simp [pollHealth, World.exec, printed, hs, List.replicate_succ', List.append_assoc]

theorem Start_run_ok (a : App) (iter : List (String × String)) (events : List Event)
    (buf : String) (hbuf : 12 ≤ buf.length) (rest : List CmdResult)
    (log : List (List String)) :
    a.Start iter events ⟨printed buf :: rest, log⟩
      = afterPoll { a with containerId := String.mk (buf.data.take 12) } buf
          (pollHealth { a with containerId := String.mk (buf.data.take 12) } events
            ⟨rest, log ++ ["docker" :: a.startArgs iter]⟩) := by
  have h : ¬ buf.length < 12 := by omega
  simp only [App.Start, World.exec, printed, h, if_false, afterPoll]

theorem Start_pending (a : App) (iter : List (String × String)) (buf : String)
    (hbuf : 12 ≤ buf.length) (sts : List String) (hsts : ∀ s ∈ sts, pending s)
    (evs : List Event) (rest : List CmdResult) (log : List (List String)) :
    a.Start iter (List.replicate sts.length Event.tick ++ evs)
        ⟨printed buf :: (sts.map printed ++ rest), log⟩
      = afterPoll { a with containerId := String.mk (buf.data.take 12) } buf
          (pollHealth { a with containerId := String.mk (buf.data.take 12) } evs
            ⟨rest, log ++ ("docker" :: a.startArgs iter) ::
              List.replicate sts.length
                ["docker", "inspect", "-f", "\x7b\x7b.State.Health.Status\x7d\x7d",
                  String.mk (buf.data.take 12)]⟩) := by
  rw [Start_run_ok a iter _ buf hbuf, pollHealth_pending _ sts hsts]
  simp [List.append_assoc]

theorem Start_then_healthy (a : App) (iter : List (String × String)) (buf : String)
    (hbuf : 12 ≤ buf.length) (sts : List String) (hsts : ∀ s ∈ sts, pending s)
    (s : String) (hs : TrimSpace s = "healthy")
    (evs : List Event) (rest : List CmdResult) (log : List (List String)) :
    a.Start iter (List.replicate sts.length Event.tick ++ Event.tick :: evs)
        ⟨printed buf :: (sts.map printed ++ printed s :: rest), log⟩
      = discoverPort { a with containerId := String.mk (buf.data.take 12) } buf
          ⟨rest, log ++ ("docker" :: a.startArgs iter) ::
            List.replicate (sts.length + 1)
              ["docker", "inspect", "-f", "\x7b\x7b.State.Health.Status\x7d\x7d",
                String.mk (buf.data.take 12)]⟩ := by
  rw [Start_pending a iter buf hbuf sts hsts]
  simp [pollHealth, World.exec, printed, hs, afterPoll, List.replicate_succ',
    List.append_assoc]

theorem Start_then_unhealthy (a : App) (iter : List (String × String)) (buf : String)
    (hbuf : 12 ≤ buf.length) (sts : List String) (hsts : ∀ s ∈ sts, pending s)
    (s : String) (hs : TrimSpace s = "unhealthy")
    (evs : List Event) (rest : List CmdResult) (log : List (List String)) :
    a.Start iter (List.replicate sts.length Event.tick ++ Event.tick :: evs)
        ⟨printed buf :: (sts.map printed ++ printed s :: rest), log⟩
      = ⟨.returned (some ("app failed to start : " ++ a.fixtureName)),
          { a with containerId := String.mk (buf.data.take 12) },
          ⟨rest, log ++ ("docker" :: a.startArgs iter) ::
            List.replicate (sts.length + 1)
              ["docker", "inspect", "-f", "\x7b\x7b.State.Health.Status\x7d\x7d",
                String.mk (buf.data.take 12)]⟩⟩ := by
  rw [Start_pending a iter buf hbuf sts hsts]
  simp [pollHealth, World.exec, printed, hs, afterPoll, List.replicate_succ',
    List.append_assoc]

theorem Start_then_deadline (a : App) (iter : List (String × String)) (buf : String)
    (hbuf : 12 ≤ buf.length) (sts : List String) (hsts : ∀ s ∈ sts, pending s)
    (evs : List Event) (rest : List CmdResult) (log : List (List String)) :
    a.Start iter (List.replicate sts.length Event.tick ++ Event.deadline :: evs)
        ⟨printed buf :: (sts.map printed ++ rest), log⟩
      = ⟨.returned (some ("timed out waiting for app : " ++ a.fixtureName)),
          { a with containerId := String.mk (buf.data.take 12) },
          ⟨rest, log ++ ("docker" :: a.startArgs iter) ::
            List.replicate sts.length
              ["docker", "inspect", "-f", "\x7b\x7b.State.Health.Status\x7d\x7d",
                String.mk (buf.data.take 12)]⟩⟩ := by
  rw [Start_pending a iter buf hbuf sts hsts]
  simp [pollHealth, afterPoll]

theorem pollHealth_break (a : App) (evs : List Event) (w w2 : World)
    (h : pollHealth a evs w = (none, w2)) :
    ∃ n, w2.log = w.log ++ List.replicate (n + 1)
      ["docker", "inspect", "-f", "\x7b\x7b.State.Health.Status\x7d\x7d",
        a.containerId] := by
  induction evs generalizing w with
  | nil => simp [pollHealth] at h
  | cons e evs ih =>
    cases e with
    | deadline => simp [pollHealth] at h
    | tick =>
      rcases w with ⟨rs, log⟩
      cases rs with
      | nil => simp [pollHealth, World.exec] at h
      | cons r rs =>
        rcases r with ⟨status, err⟩
        cases err with
        | some e => simp [pollHealth, World.exec] at h
        | none =>
          simp only [pollHealth, World.exec] at h
          split_ifs at h with h1 h2
          · simp at h
          · simp only [Prod.mk.injEq, true_and] at h
            exact ⟨0, by simp [← h]⟩
          · obtain ⟨n, hn⟩ := ih _ h
            exact ⟨n + 1, by rw [hn]; simp [List.replicate_succ (n := n + 1)]⟩

theorem pollHealth_no_nil (a : App) (evs : List Event) (w w2 : World) (o : Outcome GoError)
    (h : pollHealth a evs w = (some o, w2)) : o ≠ .returned none := by
  induction evs generalizing w with
  | nil => simp only [pollHealth, Prod.mk.injEq, Option.some.injEq] at h; simp [← h.1]
  | cons e evs ih =>
    cases e with
    | deadline => simp only [pollHealth, Prod.mk.injEq, Option.some.injEq] at h; simp [← h.1]
    | tick =>
      rcases w with ⟨rs, log⟩
      cases rs with
      | nil =>
        simp only [pollHealth, World.exec, Prod.mk.injEq, Option.some.injEq] at h
        simp [← h.1]
      | cons r rs =>
        rcases r with ⟨status, err⟩
        cases err with
        | some e =>
          simp only [pollHealth, World.exec, Prod.mk.injEq, Option.some.injEq] at h
          simp [← h.1]
        | none =>
          simp only [pollHealth, World.exec] at h
          split_ifs at h with h1 h2
          · simp only [Prod.mk.injEq, Option.some.injEq] at h; simp [← h.1]
          · simp at h
          · exact ih _ h

theorem discoverPort_ok (a : App) (buf : String) (w : World)
    (h : (discoverPort a buf w).out = .returned none) :
    (discoverPort a buf w).world.log = w.log ++ [["docker", "container", "port", a.containerId]]
      ∧ (discoverPort a buf w).app.containerId = a.containerId := by
  rcases w with ⟨rs, log⟩
  cases rs with
  | nil => simp [discoverPort, World.exec] at h
  | cons r rs =>
    rcases r with ⟨out, err⟩
    cases err with
    | some e => simp [discoverPort, World.exec] at h
    | none =>
      simp only [discoverPort, World.exec] at h ⊢
      split <;> simp_all

theorem Start_ok_polled (a : App) (iter : List (String × String)) (events : List Event)
    (w : World) (h : (a.Start iter events w).out = .returned none) :
    ∃ n, (a.Start iter events w).world.log
      = w.log ++ ("docker" :: a.startArgs iter) ::
          (List.replicate (n + 1)
              ["docker", "inspect", "-f", "\x7b\x7b.State.Health.Status\x7d\x7d",
                (a.Start iter events w).app.containerId]
            ++ [["docker", "container", "port", (a.Start iter events w).app.containerId]]) := by
  rcases w with ⟨rs, log⟩
  cases rs with
  | nil => simp [App.Start, World.exec] at h
  | cons r rs =>
    rcases r with ⟨buf, err⟩
    cases err with
    | some e => simp [App.Start, World.exec] at h
    | none =>
      by_cases hb : buf.length < 12
      · simp [App.Start, World.exec, hb] at h
      · have hrun := Start_run_ok a iter events buf (by omega) rs log
        simp only [printed] at hrun
        rw [hrun] at h ⊢
        rcases hp : pollHealth { a with containerId := String.mk (buf.data.take 12) } events
          ⟨rs, log ++ ["docker" :: a.startArgs iter]⟩ with ⟨o, w2⟩
        cases o with
        | some o =>
          rw [hp] at h
          simp only [afterPoll] at h
          exact absurd h (pollHealth_no_nil _ _ _ _ _ hp)
        | none =>
          rw [hp] at h
          simp only [afterPoll] at h ⊢
          obtain ⟨n, hn⟩ := pollHealth_break _ _ _ _ hp
          obtain ⟨hlog, hid⟩ := discoverPort_ok _ _ _ h
          exact ⟨n, by rw [hlog, hid, hn]; simp [List.append_assoc]⟩

/-! ## Health polling -/

/-- C1: health polling in `App.Start`. After `docker run` succeeded (an output
`buf` of at least 12 bytes, whose first 12 bytes are the container id) and any
number k of ticks whose trimmed status is neither "healthy" nor "unhealthy":
(1) a tick with status "healthy" ends polling in success (the loop is left by
`break`), `Start` going on to port discovery with exactly k+1 status queries
`docker inspect -f {{.State.Health.Status}} id` issued; (2) a tick with status
"unhealthy" makes `Start` return "app failed to start : fixtureName" after
exactly k+1 status queries and nothing more; (3) the deadline makes `Start`
return "timed out waiting for app : fixtureName". Statuses unknown, unknown,
healthy give success after exactly 3 ticks. -/
theorem Start_health_polling (a : App) (iter : List (String × String)) (buf : String)
    (hbuf : 12 ≤ buf.length) (sts : List String) (hsts : ∀ s ∈ sts, pending s)
    (evs : List Event) (rest : List CmdResult) (log : List (List String)) :
    let id := String.mk (buf.data.take 12)
    let query := ["docker", "inspect", "-f", "\x7b\x7b.State.Health.Status\x7d\x7d", id]
    let run := "docker" :: a.startArgs iter
    (∀ s, TrimSpace s = "healthy" →
      a.Start iter (List.replicate sts.length Event.tick ++ Event.tick :: evs)
          ⟨⟨buf, none⟩ :: (sts.map (fun st => ⟨st, none⟩) ++ ⟨s, none⟩ :: rest), log⟩
        = discoverPort { a with containerId := id } buf
            ⟨rest, log ++ run :: List.replicate (sts.length + 1) query⟩) ∧
    (∀ s, TrimSpace s = "unhealthy" →
      a.Start iter (List.replicate sts.length Event.tick ++ Event.tick :: evs)
          ⟨⟨buf, none⟩ :: (sts.map (fun st => ⟨st, none⟩) ++ ⟨s, none⟩ :: rest), log⟩
        = ⟨.returned (some ("app failed to start : " ++ a.fixtureName)),
            { a with containerId := id },
            ⟨rest, log ++ run :: List.replicate (sts.length + 1) query⟩⟩) ∧
    a.Start iter (List.replicate sts.length Event.tick ++ Event.deadline :: evs)
        ⟨⟨buf, none⟩ :: (sts.map (fun st => ⟨st, none⟩) ++ rest), log⟩
      = ⟨.returned (some ("timed out waiting for app : " ++ a.fixtureName)),
          { a with containerId := id },
          ⟨rest, log ++ run :: List.replicate sts.length query⟩⟩ ∧
    checkedApp.Start [] [.tick, .tick, .tick]
        ⟨[⟨runOutput, none⟩, ⟨"unknown\n", none⟩, ⟨"unknown\n", none⟩, ⟨"healthy\n", none⟩,
          ⟨"8080/tcp -> 0.0.0.0:32768\n", none⟩], []⟩
      = ⟨.returned none, { checkedApp with containerId := "0123456789ab", port := "32768" },
          ⟨[], [["docker", "run", "-d", "-P", "--health-cmd",
              "curl -f http://localhost:8080/", "--health-interval", "1s",
              "--health-timeout", "2s", "app-1"],
            ["docker", "inspect", "-f", "\x7b\x7b.State.Health.Status\x7d\x7d", "0123456789ab"],
            ["docker", "inspect", "-f", "\x7b\x7b.State.Health.Status\x7d\x7d", "0123456789ab"],
            ["docker", "inspect", "-f", "\x7b\x7b.State.Health.Status\x7d\x7d", "0123456789ab"],
            ["docker", "container", "port", "0123456789ab"]]⟩⟩ ∧
    (∀ s, TrimSpace s = "healthy" →
      pollHealth { a with containerId := id }
          (List.replicate sts.length Event.tick ++ Event.tick :: evs)
          ⟨sts.map (fun st => ⟨st, none⟩) ++ ⟨s, none⟩ :: rest, log⟩
        = (none, ⟨rest, log ++ List.replicate (sts.length + 1) query⟩)) :=
  ⟨fun s hs => Start_then_healthy a iter buf hbuf sts hsts s hs evs rest log,
   fun s hs => Start_then_unhealthy a iter buf hbuf sts hsts s hs evs rest log,
   Start_then_deadline a iter buf hbuf sts hsts evs rest log,
   by decide,
   fun s hs => pollHealth_then_healthy _ sts hsts s hs evs rest log⟩

/-- Instance: a run output that is not ASCII (eight times the two bytes of
U+00E9, then a newline), whose first 12 bytes are the container id; two
pending ticks, then "unhealthy": three queries, and the result scripted after
them is left unread. -/
theorem Start_health_polling_witness :
    (12 ≤ accentedOutput.length ∧ ∀ s ∈ ["unknown\n", "starting\n"], pending s) ∧
    plainApp.Start [] [.tick, .tick, .tick, .deadline]
        ⟨[⟨accentedOutput, none⟩, ⟨"unknown\n", none⟩, ⟨"starting\n", none⟩,
          ⟨"unhealthy\n", none⟩, ⟨"never asked", none⟩], []⟩
      = ⟨.returned (some "app failed to start : fixtures/simple"),
          { plainApp with containerId := "\xc3\xa9\xc3\xa9\xc3\xa9\xc3\xa9\xc3\xa9\xc3\xa9" },
          ⟨[⟨"never asked", none⟩], [["docker", "run", "-d", "-P", "app-1"],
            ["docker", "inspect", "-f", "\x7b\x7b.State.Health.Status\x7d\x7d",
              "\xc3\xa9\xc3\xa9\xc3\xa9\xc3\xa9\xc3\xa9\xc3\xa9"],
            ["docker", "inspect", "-f", "\x7b\x7b.State.Health.Status\x7d\x7d",
              "\xc3\xa9\xc3\xa9\xc3\xa9\xc3\xa9\xc3\xa9\xc3\xa9"],
            ["docker", "inspect", "-f", "\x7b\x7b.State.Health.Status\x7d\x7d",
              "\xc3\xa9\xc3\xa9\xc3\xa9\xc3\xa9\xc3\xa9\xc3\xa9"]]⟩⟩ :=
  ⟨⟨by decide, by decide⟩,
   (Start_health_polling plainApp [] accentedOutput (by decide) ["unknown\n", "starting\n"]
      (by decide) [.deadline] [⟨"never asked", none⟩] []).2.1 "unhealthy\n" (by decide)⟩

/-- C2, as stated, fails: `plainApp` has no health-check command, its run
command succeeds, and `Start` still polls: the deadline gives the timeout
error, a tick issues the status query and "unhealthy" gives the unhealthy
error, and an error of the status query is returned as the error of `Start`. -/
theorem Start_polls_without_health_check :
    plainApp.healthCheck.command = "" ∧
    plainApp.Start [] [.deadline] ⟨[⟨runOutput, none⟩], []⟩
      = ⟨.returned (some "timed out waiting for app : fixtures/simple"),
          { plainApp with containerId := "0123456789ab" },
          ⟨[], [["docker", "run", "-d", "-P", "app-1"]]⟩⟩ ∧
    plainApp.Start [] [.tick] ⟨[⟨runOutput, none⟩, ⟨"unhealthy\n", none⟩], []⟩
      = ⟨.returned (some "app failed to start : fixtures/simple"),
          { plainApp with containerId := "0123456789ab" },
          ⟨[], [["docker", "run", "-d", "-P", "app-1"],
            ["docker", "inspect", "-f", "\x7b\x7b.State.Health.Status\x7d\x7d",
              "0123456789ab"]]⟩⟩ ∧
    plainApp.Start [] [.tick] ⟨[⟨runOutput, none⟩, ⟨"", some "exit status 1"⟩], []⟩
      = ⟨.returned (some "exit status 1"),
          { plainApp with containerId := "0123456789ab" },
          ⟨[], [["docker", "run", "-d", "-P", "app-1"],
            ["docker", "inspect", "-f", "\x7b\x7b.State.Health.Status\x7d\x7d",
              "0123456789ab"]]⟩⟩ := by
  decide

/-- C2, amended: for every `App`, also one whose health-check command is
empty, `Start` polls once the run command has succeeded (an output `buf` of at
least 12 bytes, whose first 12 bytes are the container id): when the deadline
fires first it returns the timeout error; a first tick issues the status
query `docker inspect -f {{.State.Health.Status}} id` and status "unhealthy"
gives the unhealthy error; and whenever `Start` returns without error it has
issued at least one such status query between the run command and the port
query, so port discovery is never reached directly. -/
theorem Start_always_polls (a : App) (iter : List (String × String)) (buf : String)
    (hbuf : 12 ≤ buf.length) (evs : List Event) (rest : List CmdResult)
    (log : List (List String)) :
    a.Start iter (Event.deadline :: evs) ⟨⟨buf, none⟩ :: rest, log⟩
      = ⟨.returned (some ("timed out waiting for app : " ++ a.fixtureName)),
          { a with containerId := String.mk (buf.data.take 12) },
          ⟨rest, log ++ ["docker" :: a.startArgs iter]⟩⟩ ∧
    (∀ s, TrimSpace s = "unhealthy" →
      a.Start iter (Event.tick :: evs) ⟨⟨buf, none⟩ :: ⟨s, none⟩ :: rest, log⟩
        = ⟨.returned (some ("app failed to start : " ++ a.fixtureName)),
            { a with containerId := String.mk (buf.data.take 12) },
            ⟨rest, log ++ ["docker" :: a.startArgs iter,
              ["docker", "inspect", "-f", "\x7b\x7b.State.Health.Status\x7d\x7d",
                String.mk (buf.data.take 12)]]⟩⟩) ∧
    (∀ (events : List Event) (w : World), (a.Start iter events w).out = .returned none →
      ∃ n, (a.Start iter events w).world.log
        = w.log ++ ("docker" :: a.startArgs iter) ::
            (List.replicate (n + 1)
                ["docker", "inspect", "-f", "\x7b\x7b.State.Health.Status\x7d\x7d",
                  (a.Start iter events w).app.containerId]
              ++ [["docker", "container", "port",
                    (a.Start iter events w).app.containerId]])) := by
  refine ⟨?_, ?_, fun events w h => Start_ok_polled a iter events w h⟩
  · simpa [printed] using Start_then_deadline a iter buf hbuf [] (by simp) evs rest log
  · intro s hs
    simpa [printed] using Start_then_unhealthy a iter buf hbuf [] (by simp) s hs evs rest log

/-- Instance: no health-check command; the first tick issues the status query,
which answers "unhealthy". -/
theorem Start_always_polls_witness :
    (12 ≤ runOutput.length ∧ TrimSpace "unhealthy\n" = "unhealthy") ∧
    plainApp.Start [] [.tick, .deadline]
        ⟨[⟨runOutput, none⟩, ⟨"unhealthy\n", none⟩, ⟨"never asked", none⟩], []⟩
      = ⟨.returned (some "app failed to start : fixtures/simple"),
          { plainApp with containerId := "0123456789ab" },
          ⟨[⟨"never asked", none⟩], [["docker", "run", "-d", "-P", "app-1"],
            ["docker", "inspect", "-f", "\x7b\x7b.State.Health.Status\x7d\x7d",
              "0123456789ab"]]⟩⟩ :=
  ⟨⟨by decide, by decide⟩,
   (Start_always_polls plainApp [] runOutput (by decide) [.deadline]
      [⟨"never asked", none⟩] []).2.1 "unhealthy\n" (by decide)⟩

/-! ## Teardown -/

theorem Destroy_ok_cleared (a : App) (w : World) (h : (a.Destroy w).out = .returned none) :
    (a.Destroy w).app.containerId = "" := by
  unfold App.Destroy at h ⊢
  unfold World.exec at h ⊢
  split_ifs at h ⊢ with h1
  · exact h1
  · repeat (first | rfl | (split at h <;> simp_all) | (split <;> simp_all))

/-- C3: `App.Destroy` is idempotent. For every `App` and every behaviour of
the external commands, when a first `Destroy` returns no error, a second one
right after it returns no error, issues no command and consumes no result
(the world is the same) and leaves the `App` as it was. -/
theorem Destroy_idempotent (a : App) (w : World)
    (h : (a.Destroy w).out = .returned none) :
    (a.Destroy w).app.Destroy (a.Destroy w).world
      = ⟨.returned none, (a.Destroy w).app, (a.Destroy w).world⟩ := by
  have hc := Destroy_ok_cleared a w h
  generalize a.Destroy w = r at hc
  simp [App.Destroy, hc]

/-- Instance: a full teardown, then a second call. -/
theorem Destroy_idempotent_witness :
    (runningApp.Destroy ⟨[done, done, done, done], []⟩).out = .returned none ∧
    (runningApp.Destroy ⟨[done, done, done, done], []⟩).app.Destroy
        (runningApp.Destroy ⟨[done, done, done, done], []⟩).world
      = ⟨.returned none, (runningApp.Destroy ⟨[done, done, done, done], []⟩).app,
          (runningApp.Destroy ⟨[done, done, done, done], []⟩).world⟩ :=
  ⟨by decide, Destroy_idempotent runningApp ⟨[done, done, done, done], []⟩ (by decide)⟩

/-- C4, as stated, fails: `namelessApp` has a container id and an empty image
name; every command would succeed, yet `Destroy` runs `stop` and `rm` only,
never `rmi` nor `image prune`, and returns no error. -/
theorem Destroy_skips_image_steps :
    namelessApp.containerId ≠ "" ∧
    namelessApp.Destroy ⟨[done, done, done, done], []⟩
      = ⟨.returned none, { namelessApp with containerId := "", port := "" },
          ⟨[done, done], [["docker", "stop", "0123456789ab"],
            ["docker", "rm", "0123456789ab", "-f", "--volumes"]]⟩⟩ := by
  decide

/-- C4, amended: `App.Destroy` on an `App` with a non-empty container id runs
`stop`, then `rm`; it goes on with `rmi` and `image prune` if the image name is
non-empty, and returns without error after `rm`, container id and port
cleared, if it is empty. The first failing step's error is returned unchanged
and no later step is run: if `stop` or `rm` fails the `App` is unchanged; if
`rmi` or `prune` fails container id and port are empty and the image name is
unchanged; when all four succeed container id, port and image name are empty. -/
theorem Destroy_steps (a : App) (hid : a.containerId ≠ "") (rest : List CmdResult)
    (log : List (List String)) (o1 o2 o3 o4 e : String) :
    let stop := ["docker", "stop", a.containerId]
    let rm := ["docker", "rm", a.containerId, "-f", "--volumes"]
    let rmi := ["docker", "rmi", a.imageName, "-f"]
    let prune := ["docker", "image", "prune", "-f"]
    let cleared : App := { a with containerId := "", port := "" }
    a.Destroy ⟨⟨o1, some e⟩ :: rest, log⟩ = ⟨.returned (some e), a, ⟨rest, log ++ [stop]⟩⟩ ∧
    a.Destroy ⟨printed o1 :: ⟨o2, some e⟩ :: rest, log⟩
      = ⟨.returned (some e), a, ⟨rest, log ++ [stop, rm]⟩⟩ ∧
    (a.imageName = "" →
      a.Destroy ⟨printed o1 :: printed o2 :: rest, log⟩
        = ⟨.returned none, cleared, ⟨rest, log ++ [stop, rm]⟩⟩) ∧
    (a.imageName ≠ "" →
      a.Destroy ⟨printed o1 :: printed o2 :: ⟨o3, some e⟩ :: rest, log⟩
        = ⟨.returned (some e), cleared, ⟨rest, log ++ [stop, rm, rmi]⟩⟩ ∧
      a.Destroy ⟨printed o1 :: printed o2 :: printed o3 :: ⟨o4, some e⟩ :: rest, log⟩
        = ⟨.returned (some e), cleared, ⟨rest, log ++ [stop, rm, rmi, prune]⟩⟩ ∧
      a.Destroy ⟨printed o1 :: printed o2 :: printed o3 :: printed o4 :: rest, log⟩
        = ⟨.returned none, { cleared with imageName := "" },
            ⟨rest, log ++ [stop, rm, rmi, prune]⟩⟩) := by
  intro stop rm rmi prune cleared
  refine ⟨?_, ?_, ?_, ?_⟩
  · simp [App.Destroy, World.exec, hid, stop]
  · simp [App.Destroy, World.exec, hid, printed, stop, rm]
  · intro him
    simp [App.Destroy, World.exec, hid, printed, him, stop, rm, cleared]
  · intro him
    refine ⟨?_, ?_, ?_⟩ <;>
      simp [App.Destroy, World.exec, hid, printed, him, stop, rm, rmi, prune, cleared]

/-- Instance: `rm` fails after `stop` succeeded. -/
theorem Destroy_steps_witness :
    runningApp.containerId ≠ "" ∧
    runningApp.Destroy ⟨[printed "0123456789ab\n", ⟨"", some "exit status 1"⟩, done], []⟩
      = ⟨.returned (some "exit status 1"), runningApp,
          ⟨[done], [["docker", "stop", "0123456789ab"],
            ["docker", "rm", "0123456789ab", "-f", "--volumes"]]⟩⟩ :=
  ⟨by decide,
   (Destroy_steps runningApp (by decide) [done] [] "0123456789ab\n" "" "" ""
      "exit status 1").2.1⟩

/-! ## Release assets -/

/-- C5, the code at the boundary: `GetDownloadUri` guards with
`len(response.Assets) < asset`, so the index equal to the number of assets
passes the guard and the indexing panics (index 0 of a release without assets,
which is what `GetLatestBuildpackRelease` asks for, included). Strictly larger
indices return the index error with empty URL and tag, and an index inside the
slice returns that asset's URL, the tag and no error. -/
theorem GetDownloadUri_boundary :
    GetDownloadUri bareRelease 0 = .panicked ∧
    (∀ response : ReleaseResponse,
      GetDownloadUri response response.Assets.length = .panicked) ∧
    (∀ (response : ReleaseResponse) (k : Nat),
      GetDownloadUri response (response.Assets.length + 1 + k : Nat)
        = .returned ("", "", some ("there is no corresponding no release asset at index "
            ++ toString ((response.Assets.length + 1 + k : Nat) : Int)))) ∧
    (∀ (tag src : String) (before : List Asset) (x : Asset) (after : List Asset),
      GetDownloadUri ⟨tag, before ++ x :: after, src⟩ before.length
        = .returned (x.BrowserDownloadURL, tag, none)) := by
  refine ⟨by decide, ?_, ?_, ?_⟩
  · intro response
    simp [GetDownloadUri]
  · intro response k
    have h : (response.Assets.length : Int) < ((response.Assets.length + 1 + k : Nat) : Int) := by
      exact_mod_cast (by omega : response.Assets.length < response.Assets.length + 1 + k)
    simp only [GetDownloadUri, h, if_true]
  · intro tag src before x after
    have h1 : ¬ ((after.length : Int) + 1 < 0) := by omega
    have h2 : ¬ ((before.length : Int) < 0) := by omega
    have h3 : (before ++ x :: after).get? before.length = some x := by
      induction before with
      | nil => rfl
      | cons b bs ih => simpa using ih
    simp only [GetDownloadUri, List.length_append, List.length_cons, Int.toNat_ofNat, h3]
    have h4 : ¬ (((before.length + (after.length + 1) : Nat) : Int) < (before.length : Int)) := by
      omega
    simp only [h4, h2, if_false]

/-! ## Inspection helpers -/

/-- C9: for every response obtained without transport error and whose body is
read without error, `App.HTTPGet` returns an error exactly when the status
code is below 200 or at least 300; for a status from 200 to 299 it returns the
body and the headers; `HTTPGetBody` returns the body and the error of
`HTTPGet`. -/
theorem HTTPGet_status (a : App) (httpGet : String → Except String HttpResponse)
    (path : String) (resp : HttpResponse) (body : String)
    (hget : httpGet ("http://localhost:" ++ a.port ++ path) = .ok resp)
    (hbody : resp.Body = .ok body) :
    ((a.HTTPGet httpGet path).2.2 ≠ none ↔ (resp.StatusCode < 200 ∨ resp.StatusCode ≥ 300)) ∧
    (200 ≤ resp.StatusCode ∧ resp.StatusCode ≤ 299 →
      a.HTTPGet httpGet path = (body, some resp.Header, none)) ∧
    a.HTTPGetBody httpGet path = ((a.HTTPGet httpGet path).1, (a.HTTPGet httpGet path).2.2) := by
  refine ⟨?_, ?_, ?_⟩
  · simp only [App.HTTPGet, hget, hbody]
    split_ifs with h <;> simp [h]
  · intro h
    have h' : ¬ (resp.StatusCode < 200 ∨ resp.StatusCode ≥ 300) := by omega
    simp only [App.HTTPGet, hget, hbody, h', if_false]
  · simp only [App.HTTPGetBody]

/-- Instance: status 200 with body "hello". -/
theorem HTTPGet_status_witness :
    runningApp.HTTPGet helloServer "/" = ("hello", some [("Content-Type", ["text/plain"])], none) :=
  (HTTPGet_status runningApp helloServer "/" _ "hello" rfl rfl).2.1 (by decide)

/-- C10, the code: for every output of `docker volume ls -q`, `getCacheVolumes`
returns all its lines, not the lines that contain "pack-cache" (the filtered
list is built and dropped); `App.Info` hands that list on with the container
id and image name of the `App`. On the listing below the result contains
"my-data" and the empty line after the last newline. -/
theorem getCacheVolumes_returns_all_lines :
    (∀ (output : String) (rest : List CmdResult) (log : List (List String)),
      getCacheVolumes ⟨printed output :: rest, log⟩
        = (.returned (Split output '\n', none),
            ⟨rest, log ++ [["docker", "volume", "ls", "-q"]]⟩)) ∧
    (∀ (a : App) (output : String) (rest : List CmdResult) (log : List (List String)),
      a.Info ⟨printed output :: rest, log⟩
        = (.returned (a.containerId, a.imageName, Split output '\n', none),
            ⟨rest, log ++ [["docker", "volume", "ls", "-q"]]⟩)) ∧
    runningApp.Info ⟨[printed "pack-cache-6a1f.build\nmy-data\n"], []⟩
      = (.returned ("0123456789ab", "app-1", ["pack-cache-6a1f.build", "my-data", ""], none),
          ⟨[], [["docker", "volume", "ls", "-q"]]⟩) ∧
    Contains "my-data" "pack-cache" = false ∧ Contains "" "pack-cache" = false := by
  refine ⟨?_, ?_, by decide, by decide, by decide⟩
  · intro output rest log
    simp [getCacheVolumes, World.exec, printed]
  · intro a output rest log
    simp [App.Info, getCacheVolumes, World.exec, printed]

/-! ## The run command -/

theorem foldl_envFlag (iter : List (String × String)) (args : List String) :
    iter.foldl (fun args kv => args ++ ["-e", kv.1 ++ "=" ++ kv.2]) args
      = args ++ (iter.map envFlag).flatten := by
  induction iter generalizing args with
  | nil => simp
  | cons kv iter ih => simp [ih, envFlag, List.append_assoc]

/-- C8, as stated, fails: a health-check spec was set with a command and
empty interval and timeout; the run command carries `--health-cmd` and neither
`--health-interval` nor `--health-timeout`. -/
theorem startArgs_command_only :
    commandOnlyApp.startArgs []
      = ["run", "-d", "-P", "--health-cmd", "curl -f http://localhost:8080/", "app-1"] ∧
    "--health-cmd" ∈ commandOnlyApp.startArgs [] ∧
    "--health-interval" ∉ commandOnlyApp.startArgs [] ∧
    "--health-timeout" ∉ commandOnlyApp.startArgs [] := by
  decide

/-- C8, amended: the argument list `App.Start` passes to the runtime is "run",
"-d", "-P"; then "--memory", Memory if and only if Memory is non-empty; then
each of the pairs "--health-cmd" command, "--health-interval" interval,
"--health-timeout" timeout on its own, if and only if that value is non-empty;
then for the entries of Env, in the order the map yields them, one pair "-e",
"KEY=VALUE" each (as many pairs as entries, the same pairs whatever the
order); and the image name as the last argument. -/
theorem startArgs_layout (a : App) (iter : List (String × String))
    (hiter : iter.Perm a.Env) :
    a.startArgs iter
      = ["run", "-d", "-P"]
        ++ (if a.Memory = "" then [] else ["--memory", a.Memory])
        ++ (if a.healthCheck.command = "" then []
            else ["--health-cmd", a.healthCheck.command])
        ++ (if a.healthCheck.interval = "" then []
            else ["--health-interval", a.healthCheck.interval])
        ++ (if a.healthCheck.timeout = "" then []
            else ["--health-timeout", a.healthCheck.timeout])
        ++ (iter.map envFlag).flatten ++ [a.imageName] ∧
    (iter.map envFlag).Perm (a.Env.map envFlag) ∧
    (iter.map envFlag).length = a.Env.length ∧
    (a.startArgs iter).getLast? = some a.imageName := by
  refine ⟨?_, hiter.map envFlag, by simp [hiter.length_eq], ?_⟩
  · simp only [App.startArgs, foldl_envFlag]
    by_cases h1 : a.Memory = "" <;> by_cases h2 : a.healthCheck.command = "" <;>
      by_cases h3 : a.healthCheck.interval = "" <;>
      by_cases h4 : a.healthCheck.timeout = "" <;>
      simp [h1, h2, h3, h4]
  · simp [App.startArgs]

/-- Instance: memory limit, full health check, two entries walked in the
order MODE, PORT. -/
theorem startArgs_layout_witness :
    [("MODE", "test"), ("PORT", "8080")].Perm tunedApp.Env ∧
    tunedApp.startArgs [("MODE", "test"), ("PORT", "8080")]
      = ["run", "-d", "-P", "--memory", "128m",
          "--health-cmd", "curl -f http://localhost:8080/", "--health-interval", "1s",
          "--health-timeout", "2s", "-e", "MODE=test", "-e", "PORT=8080", "app-1"] :=
  ⟨by decide, (startArgs_layout tunedApp [("MODE", "test"), ("PORT", "8080")] (by decide)).1⟩

/-! ## Port discovery -/

theorem splitChars_of_not_mem (sep : Char) (l : List Char) (h : sep ∉ l) :
    splitChars sep l = [l] := by
  induction l with
  | nil => rfl
  | cons c cs ih =>
    have hc : c ≠ sep := fun e => h (by simp [e])
    have hcs : sep ∉ cs := fun e => h (List.mem_cons_of_mem _ e)
    simp [splitChars, hc, ih hcs]

theorem splitChars_append_sep (sep : Char) (l r : List Char) (h : sep ∉ l) :
    splitChars sep (l ++ sep :: r) = l :: splitChars sep r := by
  induction l with
  | nil => simp [splitChars]
  | cons c cs ih =>
    have hc : c ≠ sep := fun e => h (by simp [e])
    have hcs : sep ∉ cs := fun e => h (List.mem_cons_of_mem _ e)
    simp [splitChars, hc, ih hcs]

theorem Split_two_fields (before after : String) (hb : ':' ∉ before.data)
    (ha : ':' ∉ after.data) :
    Split (before ++ ":" ++ after) ':' = [before, after] := by
  have h : (before ++ ":" ++ after).data = before.data ++ ':' :: after.data := by
    simp [String.data_append]
  simp [Split, h, splitChars_append_sep _ _ _ hb, splitChars_of_not_mem _ _ ha]

theorem discoverPort_two_fields (a : App) (buf host after : String)
    (hbuf : ':' ∉ buf.data) (hhost : ':' ∉ host.data) (hafter : ':' ∉ after.data)
    (rest : List CmdResult) (log : List (List String)) :
    discoverPort a buf ⟨printed (host ++ ":" ++ after) :: rest, log⟩
      = ⟨.returned none, { a with port := TrimSpace after },
          ⟨rest, log ++ [["docker", "container", "port", a.containerId]]⟩⟩ := by
  have hb : ':' ∉ (buf ++ host).data := by simp [String.data_append, hbuf, hhost]
  have h : buf ++ (host ++ ":" ++ after) = (buf ++ host) ++ ":" ++ after := by
    simp [String.append_assoc]
  simp [discoverPort, World.exec, printed, h, Split_two_fields _ _ hb hafter]

/-- C7, as stated, fails: with the port-mapping output
"0.0.0.0:32768->8080/tcp" the port stored by `Start` is "32768->8080/tcp",
not "32768". -/
theorem claimed_format_port :
    checkedApp.Start [] [.tick]
        ⟨[⟨runOutput, none⟩, ⟨"healthy\n", none⟩, ⟨"0.0.0.0:32768->8080/tcp", none⟩], []⟩
      = ⟨.returned none,
          { checkedApp with containerId := "0123456789ab", port := "32768->8080/tcp" },
          ⟨[], [["docker", "run", "-d", "-P", "--health-cmd",
              "curl -f http://localhost:8080/", "--health-interval", "1s",
              "--health-timeout", "2s", "app-1"],
            ["docker", "inspect", "-f", "\x7b\x7b.State.Health.Status\x7d\x7d", "0123456789ab"],
            ["docker", "container", "port", "0123456789ab"]]⟩⟩ ∧
    (checkedApp.Start [] [.tick]
        ⟨[⟨runOutput, none⟩, ⟨"healthy\n", none⟩, ⟨"0.0.0.0:32768->8080/tcp", none⟩],
          []⟩).app.port ≠ "32768" := by
  decide

/-- C7, amended: after a successful run command whose output `buf` has at
least 12 bytes (the first 12 are the container id) and no colon, and a polling
phase that ends on "healthy", for every port-mapping output with exactly one
colon, `host:rest`, the port stored is `rest` with surrounding white space
removed, that is all the text after the colon. For an output
"host:port->container-port/tcp" it is "port->container-port/tcp"
("0.0.0.0:32768->8080/tcp" yields "32768->8080/tcp"); it is the host-side port
number alone when the number ends the output, as in
"8080/tcp -> 0.0.0.0:32768". -/
theorem Start_port (a : App) (iter : List (String × String)) (buf : String)
    (hbuf : 12 ≤ buf.length) (hrun : ':' ∉ buf.data)
    (sts : List String) (hsts : ∀ s ∈ sts, pending s) (s : String)
    (hs : TrimSpace s = "healthy") (host after : String)
    (hhost : ':' ∉ host.data) (hafter : ':' ∉ after.data)
    (evs : List Event) (rest : List CmdResult) (log : List (List String)) :
    (a.Start iter (List.replicate sts.length Event.tick ++ Event.tick :: evs)
        ⟨⟨buf, none⟩ :: (sts.map (fun st => ⟨st, none⟩) ++
          ⟨s, none⟩ :: ⟨host ++ ":" ++ after, none⟩ :: rest), log⟩
      = ⟨.returned none,
          { a with containerId := String.mk (buf.data.take 12), port := TrimSpace after },
          ⟨rest, log ++ ("docker" :: a.startArgs iter) ::
            (List.replicate (sts.length + 1)
                ["docker", "inspect", "-f", "\x7b\x7b.State.Health.Status\x7d\x7d",
                  String.mk (buf.data.take 12)]
              ++ [["docker", "container", "port", String.mk (buf.data.take 12)]])⟩⟩) ∧
    TrimSpace "32768->8080/tcp" = "32768->8080/tcp" ∧
    TrimSpace "32768\n" = "32768" := by
  refine ⟨?_, by decide, by decide⟩
  refine Eq.trans (Start_then_healthy a iter buf hbuf sts hsts s hs evs
    (printed (host ++ ":" ++ after) :: rest) log) ?_
  rw [discoverPort_two_fields _ buf host after hrun hhost hafter]
  simp [List.append_assoc]

/-- Instance: the run output is not ASCII (eight times the two bytes of U+00E9,
then a newline); the port number ends the output of the runtime. -/
theorem Start_port_witness :
    (12 ≤ accentedOutput.length ∧ ':' ∉ accentedOutput.data ∧
      (∀ s ∈ ["starting\n"], pending s) ∧
      TrimSpace "healthy\n" = "healthy" ∧ ':' ∉ "8080/tcp -> 0.0.0.0".data ∧
      ':' ∉ "32768\n".data) ∧
    checkedApp.Start [] [.tick, .tick]
        ⟨[⟨accentedOutput, none⟩, ⟨"starting\n", none⟩, ⟨"healthy\n", none⟩,
          ⟨"8080/tcp -> 0.0.0.0:32768\n", none⟩], []⟩
      = ⟨.returned none,
          { checkedApp with
            containerId := "\xc3\xa9\xc3\xa9\xc3\xa9\xc3\xa9\xc3\xa9\xc3\xa9", port := "32768" },
          ⟨[], [["docker", "run", "-d", "-P", "--health-cmd",
              "curl -f http://localhost:8080/", "--health-interval", "1s",
              "--health-timeout", "2s", "app-1"],
            ["docker", "inspect", "-f", "\x7b\x7b.State.Health.Status\x7d\x7d",
              "\xc3\xa9\xc3\xa9\xc3\xa9\xc3\xa9\xc3\xa9\xc3\xa9"],
            ["docker", "inspect", "-f", "\x7b\x7b.State.Health.Status\x7d\x7d",
              "\xc3\xa9\xc3\xa9\xc3\xa9\xc3\xa9\xc3\xa9\xc3\xa9"],
            ["docker", "container", "port",
              "\xc3\xa9\xc3\xa9\xc3\xa9\xc3\xa9\xc3\xa9\xc3\xa9"]]⟩⟩ :=
  ⟨by decide,
   (Start_port checkedApp [] accentedOutput (by decide) (by decide) ["starting\n"]
     (by decide) "healthy\n" (by decide) "8080/tcp -> 0.0.0.0" "32768\n" (by decide)
     (by decide) [] [] []).1⟩

/-! ## Download cache: behaviour -/

theorem key_ne_stored_key (digest : String → String) (hd : ∀ u, (digest u).length = 44)
    (uri name tagName : String) :
    (name ++ tagName == name ++ tagName ++ digest uri) = false := by
  have h : name ++ tagName ≠ name ++ tagName ++ digest uri := by
    intro e
    have hl := congrArg String.length e
    simp only [String.length_append, hd] at hl
    omega
  simpa using h

/-- C6, the code: the cache is read under the key `name ++ tagName` and
written under `name ++ tagName ++ digest uri`, and the digest text is never
empty. In a fresh process a successful `DownloadArchive` followed by a second
one with the same uri, name and tag performs a second HTTP GET, and the second
file holds what the second GET delivered, whatever the first delivered. -/
theorem DownloadArchive_fetches_again (digest : String → String)
    (hd : ∀ u, (digest u).length = 44)
    (uri name tagName first second file1 file2 : String) :
    (DownloadArchive digest uri name tagName (freshStore first second file1 file2)).1
      = .returned (file1, none) ∧
    (DownloadArchive digest uri name tagName (freshStore first second file1 file2)).2.gets
      = [uri] ∧
    (DownloadArchive digest uri name tagName
      (DownloadArchive digest uri name tagName (freshStore first second file1 file2)).2).1
      = .returned (file2, none) ∧
    (DownloadArchive digest uri name tagName
      (DownloadArchive digest uri name tagName (freshStore first second file1 file2)).2).2.gets
      = [uri, uri] ∧
    (DownloadArchive digest uri name tagName
      (DownloadArchive digest uri name tagName (freshStore first second file1 file2)).2).2.files
      = [(file1, first), (file2, second)] := by
  have hk := key_ne_stored_key digest hd uri name tagName
  simp [DownloadArchive, loadOrFetch, freshStore, List.lookup, hk]

/-- Instance: the same archive asked for twice in a fresh process. -/
theorem DownloadArchive_fetches_again_witness :
    (∀ u, (sampleDigest u).length = 44) ∧
    (DownloadArchive sampleDigest "https://example.org/x-cnb.tgz" "x-cnb" "v1.0.0"
      (DownloadArchive sampleDigest "https://example.org/x-cnb.tgz" "x-cnb" "v1.0.0"
        (freshStore "first bytes" "other bytes" "/tmp/001" "/tmp/002")).2).2.files
      = [("/tmp/001", "first bytes"), ("/tmp/002", "other bytes")] :=
  ⟨fun _ => rfl,
   (DownloadArchive_fetches_again sampleDigest (fun _ => rfl)
      "https://example.org/x-cnb.tgz" "x-cnb" "v1.0.0" "first bytes" "other bytes"
      "/tmp/001" "/tmp/002").2.2.2.2⟩

end Dagger
